import Mathlib

/-!
Verification of the SmartAPITest core (`smartapitest.py`): the operation
normalizer (`analyze_spec`), the request building and verdict logic
(`run_test_case`), and the run coordinator's execution loop (`main`).
The Python dictionaries are embedded as records with `Option` fields for
the keys the code reads with `.get`, and ordered association lists for
header mappings (Python `dict` preserves insertion order).
-/

/-- A JSON value, as produced by the stdlib parser and carried opaquely
through the pipeline (parameters, request bodies, response bodies). -/
inductive Json where
  | null : Json
  | bool : Bool → Json
  | num : Int → Json
  | str : String → Json
  | arr : List Json → Json
  | obj : List (String × Json) → Json

/-- A raw operation object as it appears under a method key of a path item:
the keys that `analyze_spec` reads with `.get`, `none` meaning the key is
absent from the dictionary. -/
structure RawOperation where
  operationId : Option String
  parameters : Option Json
  requestBody : Option Json
  responses : Option Json
  consumes : Option (List String)


/-- A resolved API description: the document-level `consumes` key (optional)
and the `paths` mapping, an insertion-ordered association of path strings to
path items, each an insertion-ordered association of method keys to
operation objects. -/
structure ApiSpec where
  consumes : Option (List String)
  paths : List (String × List (String × RawOperation))


/-- The descriptor dictionary appended by `analyze_spec` for one
(path, method) pair (smartapitest.py lines 21-29). -/
structure OperationDescriptor where
  path : String
  method : String
  operation_id : String
  parameters : Json
  requestBody : Json
  responses : Json
  consumes : List String


/-- The set of method keys materialized into descriptors
(smartapitest.py line 18). -/
def httpMethods : List String := ["get", "post", "put", "delete", "patch"]

/-- The descriptor built for one (path, method, operation) triple, given the
already-resolved document-level fallback `global_consumes`
(smartapitest.py lines 20-29). -/
def mkDescriptor (global_consumes : List String) (path method : String)
    (operation : RawOperation) : OperationDescriptor :=
  { path := path
    method := method
    operation_id := operation.operationId.getD (method ++ "_" ++ path)
    parameters := operation.parameters.getD (Json.arr [])
    requestBody := operation.requestBody.getD (Json.obj [])
    responses := operation.responses.getD (Json.obj [])
    consumes := operation.consumes.getD global_consumes }

/-- `analyze_spec` (smartapitest.py lines 13-30): iterate the paths mapping
in document order, and within each path item iterate the method keys in
document order, keeping exactly those in `httpMethods`. -/
def analyze_spec (spec : ApiSpec) : List OperationDescriptor :=
  let global_consumes := spec.consumes.getD ["application/json"]
  spec.paths.flatMap (fun pi =>
    pi.2.filterMap (fun mo =>
      if mo.1 ∈ httpMethods then some (mkDescriptor global_consumes pi.1 mo.1 mo.2)
      else none))

example : (analyze_spec ⟨none, [("/a", [("get", ⟨none, none, none, none, none⟩), ("head", ⟨none, none, none, none, none⟩)])]⟩).length = 1 := rfl

/-! ## Test cases and requests -/

/-- Python dict key lookup `d.get(k)` on a string-keyed header mapping,
embedded as an insertion-ordered association list. -/
def lookupKey (headers : List (String × String)) (k : String) : Option String :=
  (headers.find? (fun p => p.1 = k)).map (fun p => p.2)

/-- Python `k in d` membership test (case-sensitive exact key match). -/
def hasKey (headers : List (String × String)) (k : String) : Bool :=
  headers.any (fun p => p.1 = k)

/-- The `request` object inside a generated test case: `method` and `path`
are accessed unconditionally (lines 62-63); `headers` and `body` are read
with `.get` (lines 64-65), `none` meaning the key is absent. -/
structure TCRequest where
  method : String
  path : String
  headers : Option (List (String × String))
  body : Option Json

/-- The `expected_response` object: `status_code` is accessed
unconditionally (line 80), `body` with `.get` (line 81). -/
structure ExpectedResponse where
  status_code : Int
  body : Option Json

/-- A generated test case as consumed by `run_test_case`. -/
structure TestCase where
  test_name : String
  request : TCRequest
  expected_response : ExpectedResponse

/-- The raw HTTP response delivered by the `requests` library:
a status code and the raw body text. -/
structure RawResponse where
  status_code : Int
  text : String

/-- Outcome of the network call on lines 73/75: either the library raises a
transport-level exception (connection refused, timeout, malformed response),
carrying its `str(e)` message, or a raw response is obtained. -/
inductive NetOutcome where
  | exn : String → NetOutcome
  | resp : RawResponse → NetOutcome

/-- Which of the two wire encodings lines 72-75 select: `data=body`
(form-urlencoded key/value pairs) or `json=body` (a JSON document). -/
inductive BodyEncoding where
  | form : BodyEncoding
  | json : BodyEncoding
deriving DecidableEq

/-- The fully specified outbound request assembled on lines 61-75 before the
network call: url, lowercased method, effective headers, and the body with
its selected encoding. -/
structure OutboundRequest where
  url : String
  method : String
  headers : List (String × String)
  encoding : BodyEncoding
  body : Option Json

/-- Header-injection step (lines 67-69): if no `Content-Type` key is present
(case-sensitive) and the operation's `consumes` list is non-empty (Python
truthiness), insert `Content-Type = consumes[0]`; dict insertion of a fresh
key appends in iteration order. -/
def effectiveHeaders (headers : List (String × String))
    (operation : OperationDescriptor) : List (String × String) :=
  match operation.consumes with
  | [] => headers
  | c :: _ =>
    if hasKey headers "Content-Type" then headers
    else headers ++ [("Content-Type", c)]

/-- The request-building part of `run_test_case` (lines 61-75): url is base
concatenated with the test case's path, method is lowercased, headers get
the `Content-Type` injection, and the body goes through `data=` exactly when
`headers.get('Content-Type') == 'application/x-www-form-urlencoded'`,
through `json=` otherwise. -/
def build_request (base_url : String) (test_case : TestCase)
    (operation : OperationDescriptor) : OutboundRequest :=
  let request := test_case.request
  let headers := effectiveHeaders (request.headers.getD []) operation
  { url := base_url ++ request.path
    method := request.method.toLower
    headers := headers
    encoding :=
      if lookupKey headers "Content-Type" = some "application/x-www-form-urlencoded"
      then BodyEncoding.form else BodyEncoding.json
    body := request.body }

/-- The state of the test case after the build step. In the source,
`headers = request.get('headers', {})` (line 64) binds an alias to the dict
stored inside the test case whenever the `headers` key is present, so the
in-place insertion `headers['Content-Type'] = ...` (line 69) is visible in
the test case afterwards; when the key is absent the insertion hits a fresh
dict and the test case is untouched. -/
def testCaseAfterBuild (test_case : TestCase)
    (operation : OperationDescriptor) : TestCase :=
  match test_case.request.headers with
  | none => test_case
  | some h =>
    { test_case with
      request := { test_case.request with headers := some (effectiveHeaders h operation) } }

/-! ## Verdicts -/

/-- The success-path result dict (lines 83-90). -/
structure SuccessResult where
  test_name : String
  passed : Bool
  expected_status : Int
  actual_status : Int
  expected_body : Option Json
  actual_body : Option Json

/-- A verification result: either the success-path dict (lines 83-90) or the
except-path dict `{'test_name': ..., 'passed': False, 'error': str(e)}`
(lines 95-99), which carries no `actual_status`/`actual_body` keys. -/
inductive VerificationResult where
  | ok : SuccessResult → VerificationResult
  | err : String → Bool → String → VerificationResult

/-- The `passed` value of a result (present in both dict shapes). -/
def VerificationResult.passedFlag : VerificationResult → Bool
  | .ok r => r.passed
  | .err _ p _ => p

/-- `result.get('error')`: present only in the except-path dict. -/
def VerificationResult.errorMsg : VerificationResult → Option String
  | .ok _ => none
  | .err _ _ e => some e

/-- `result.get('actual_status')`: present only in the success-path dict. -/
def VerificationResult.actualStatus : VerificationResult → Option Int
  | .ok r => some r.actual_status
  | .err _ _ _ => none

/-- `result.get('actual_body')`: present only in the success-path dict. -/
def VerificationResult.actualBody : VerificationResult → Option (Option Json)
  | .ok r => some r.actual_body
  | .err _ _ _ => none

/-- `result['test_name']` (present in both dict shapes). -/
def VerificationResult.testName : VerificationResult → String
  | .ok r => r.test_name
  | .err n _ _ => n

/-- `actual_body = response.json() if response.text else None` (line 78):
an empty text short-circuits to `None`; otherwise the stdlib parser `parse`
runs, and its exception propagates to the enclosing `except` clause. -/
def parseBody (parse : String → Except String Json) (response : RawResponse) :
    Except String (Option Json) :=
  if response.text = "" then Except.ok none
  else (parse response.text).map some

/-- `run_test_case` (lines 60-99). The network call itself and the stdlib
JSON parser are external libraries, so they enter as the `net` outcome and
the `parse` function; everything else mirrors the source: any exception
(transport failure on lines 73/75, or a body-parse failure on line 78) is
caught by the single `except` clause and becomes the error dict, while a
parsed response yields the success dict with
`passed = (actual_status == expected_status)`. -/
def run_test_case (parse : String → Except String Json) (base_url : String)
    (test_case : TestCase) (operation : OperationDescriptor)
    (net : OutboundRequest → NetOutcome) : VerificationResult :=
  match net (build_request base_url test_case operation) with
  | .exn e => .err test_case.test_name false e
  | .resp response =>
    let actual_status := response.status_code
    match parseBody parse response with
    | .error e => .err test_case.test_name false e
    | .ok actual_body =>
      let expected_status := test_case.expected_response.status_code
      .ok { test_name := test_case.test_name
            passed := actual_status == expected_status
            expected_status := expected_status
            actual_status := actual_status
            expected_body := test_case.expected_response.body
            actual_body := actual_body }

/-- The executing/aggregating loop of `main` (lines 121-124):
`for test_case, operation in zip(all_test_cases, operations)` runs each
zipped pair through `run_test_case` and appends the result. The live
service is modelled by `net`, giving the network outcome for each
outbound request. -/
def run_all (parse : String → Except String Json) (base_url : String)
    (net : OutboundRequest → NetOutcome)
    (all_test_cases : List TestCase)
    (operations : List OperationDescriptor) : List VerificationResult :=
  (all_test_cases.zip operations).map
    (fun p => run_test_case parse base_url p.1 p.2 net)

/-- A stand-in for the stdlib JSON parser at the concrete inputs used below:
it accepts the three literals and fails on any other text, as
`json.loads` fails on non-JSON text such as `"not json"`. -/
def parseLiteral : String → Except String Json := fun s =>
  if s = "null" then Except.ok Json.null
  else if s = "true" then Except.ok (Json.bool true)
  else if s = "false" then Except.ok (Json.bool false)
  else Except.error ("Expecting value: " ++ s)

/-! ## Concrete sample inputs used by witnesses and counterexamples -/

/-- A descriptor for `post /items` accepting JSON. -/
def sampleOp : OperationDescriptor :=
  { path := "/items"
    method := "post"
    operation_id := "post_/items"
    parameters := Json.arr []
    requestBody := Json.obj []
    responses := Json.obj []
    consumes := ["application/json"] }

/-- A test case expecting status 200 with body `{"ok": true}`. -/
def sampleTc : TestCase :=
  { test_name := "t1"
    request := { method := "POST", path := "/items", headers := some [], body := none }
    expected_response := { status_code := 200, body := some (Json.obj [("ok", Json.bool true)]) } }

/-! ## Theorems -/

/-- C2: any transport-level failure raised by the network call is caught by
the `except` clause and converted into a result with `passed = false` and an
`error` field holding the exception's message, with no `actual_status` or
`actual_body` keys populated; it never propagates as an uncaught fault. -/
theorem transport_failure_isolated
    (parse : String → Except String Json) (base_url : String)
    (test_case : TestCase) (operation : OperationDescriptor)
    (net : OutboundRequest → NetOutcome) (msg : String)
    (hnet : net (build_request base_url test_case operation) = NetOutcome.exn msg) :
    (run_test_case parse base_url test_case operation net).passedFlag = false ∧
    (run_test_case parse base_url test_case operation net).errorMsg = some msg ∧
    (run_test_case parse base_url test_case operation net).actualStatus = none ∧
    (run_test_case parse base_url test_case operation net).actualBody = none := by
  simp [run_test_case, hnet, VerificationResult.passedFlag, VerificationResult.errorMsg,
        VerificationResult.actualStatus, VerificationResult.actualBody]

/-- Witness for C2: a concrete connection-refused failure yields the error
result with no status or body populated. -/
theorem transport_failure_isolated_witness :
    (run_test_case parseLiteral "http://h" sampleTc sampleOp
        (fun _ => NetOutcome.exn "Connection refused")).passedFlag = false ∧
    (run_test_case parseLiteral "http://h" sampleTc sampleOp
        (fun _ => NetOutcome.exn "Connection refused")).errorMsg = some "Connection refused" ∧
    (run_test_case parseLiteral "http://h" sampleTc sampleOp
        (fun _ => NetOutcome.exn "Connection refused")).actualStatus = none ∧
    (run_test_case parseLiteral "http://h" sampleTc sampleOp
        (fun _ => NetOutcome.exn "Connection refused")).actualBody = none :=
  transport_failure_isolated parseLiteral "http://h" sampleTc sampleOp
    (fun _ => NetOutcome.exn "Connection refused") "Connection refused" rfl

/-- C7: when a response is obtained, a non-empty body text whose JSON parse
fails makes the whole run an execution failure (the error dict, with
`passed = false`), not a status-only mismatch; an empty body text
short-circuits to `actual_body = None` with no error. -/
theorem nonjson_body_is_execution_failure
    (parse : String → Except String Json) (base_url : String)
    (test_case : TestCase) (operation : OperationDescriptor)
    (net : OutboundRequest → NetOutcome) (r : RawResponse) (msg : String)
    (hnet : net (build_request base_url test_case operation) = NetOutcome.resp r) :
    (r.text ≠ "" → parse r.text = Except.error msg →
      run_test_case parse base_url test_case operation net =
        VerificationResult.err test_case.test_name false msg) ∧
    (r.text = "" →
      (run_test_case parse base_url test_case operation net).actualBody = some none ∧
      (run_test_case parse base_url test_case operation net).errorMsg = none) := by
  constructor
  · intro hne hparse
    simp [run_test_case, hnet, parseBody, hne, hparse, Except.map]
  · intro he
    simp [run_test_case, hnet, parseBody, he, VerificationResult.actualBody,
          VerificationResult.errorMsg]

/-- Witness for C7: the body text `"not json"` fails to parse and the run
becomes the error dict even though the status is the expected 200. -/
theorem nonjson_body_is_execution_failure_witness :
    run_test_case parseLiteral "http://h" sampleTc sampleOp
        (fun _ => NetOutcome.resp ⟨200, "not json"⟩) =
      VerificationResult.err "t1" false "Expecting value: not json" :=
  (nonjson_body_is_execution_failure parseLiteral "http://h" sampleTc sampleOp
      (fun _ => NetOutcome.resp ⟨200, "not json"⟩) ⟨200, "not json"⟩
      "Expecting value: not json" rfl).1 (by decide) rfl

/-- C1 (amended): for every response actually obtained whose body text is
empty or parses as JSON, the verdict is the success dict whose `passed` flag
equals `(actual_status == expected_status)`; the expected and actual bodies
are carried only as data and have no influence on `passed`. -/
theorem verdict_depends_only_on_status
    (parse : String → Except String Json) (base_url : String)
    (test_case : TestCase) (operation : OperationDescriptor)
    (net : OutboundRequest → NetOutcome) (r : RawResponse) (ab : Option Json)
    (hnet : net (build_request base_url test_case operation) = NetOutcome.resp r)
    (hbody : parseBody parse r = Except.ok ab) :
    run_test_case parse base_url test_case operation net =
      VerificationResult.ok
        { test_name := test_case.test_name
          passed := r.status_code == test_case.expected_response.status_code
          expected_status := test_case.expected_response.status_code
          actual_status := r.status_code
          expected_body := test_case.expected_response.body
          actual_body := ab } := by
  simp [run_test_case, hnet, hbody]

/-- Witness for C1 (amended): a 200 response with empty body against an
expectation of 200 with body `{"ok": true}` passes - the body mismatch is
irrelevant to the flag. -/
theorem verdict_depends_only_on_status_witness :
    run_test_case parseLiteral "http://h" sampleTc sampleOp
        (fun _ => NetOutcome.resp ⟨200, ""⟩) =
      VerificationResult.ok
        { test_name := "t1"
          passed := true
          expected_status := 200
          actual_status := 200
          expected_body := some (Json.obj [("ok", Json.bool true)])
          actual_body := none } :=
  verdict_depends_only_on_status parseLiteral "http://h" sampleTc sampleOp
    (fun _ => NetOutcome.resp ⟨200, ""⟩) ⟨200, ""⟩ none rfl rfl

/-- Counterexample for C1 as stated: the response is actually obtained and
its status code (200) equals `expected_response.status_code` (200), yet the
verdict's `passed` flag is `false`, because the non-JSON body text makes
line 78 raise and the run lands in the except clause - so the actual body
does influence `passed`. -/
theorem verdict_not_body_independent_counterexample :
    (run_test_case parseLiteral "http://h" sampleTc sampleOp
        (fun _ => NetOutcome.resp ⟨200, "an html error page"⟩)).passedFlag = false ∧
    sampleTc.expected_response.status_code = 200 := by
  constructor <;> rfl

/-- C4: the built request's headers equal the test case's headers (defaulted
to empty when the key is absent), except that when no key exactly equal to
`Content-Type` is present (case-sensitive) and the descriptor's `consumes`
is non-empty, `Content-Type = consumes[0]` is added; an explicit
`Content-Type` key is never overwritten, and an empty `consumes` injects
nothing. -/
theorem content_type_injection
    (base_url : String) (test_case : TestCase) (operation : OperationDescriptor) :
    (hasKey (test_case.request.headers.getD []) "Content-Type" = true →
      (build_request base_url test_case operation).headers =
        test_case.request.headers.getD []) ∧
    (operation.consumes = [] →
      (build_request base_url test_case operation).headers =
        test_case.request.headers.getD []) ∧
    (∀ c cs, operation.consumes = c :: cs →
      hasKey (test_case.request.headers.getD []) "Content-Type" = false →
      (build_request base_url test_case operation).headers =
        test_case.request.headers.getD [] ++ [("Content-Type", c)]) := by
  refine ⟨fun hct => ?_, fun hc => ?_, fun c cs hc hct => ?_⟩
  · unfold build_request effectiveHeaders
    cases operation.consumes <;> simp [hct]
  · simp [build_request, effectiveHeaders, hc]
  · simp [build_request, effectiveHeaders, hc, hct]

/-- Witness for C4: a test case with headers `[("X-Trace", "1")]` and no
`Content-Type`, against `consumes = ["application/json", "application/xml"]`,
gets `Content-Type = application/json` appended (first declared media type
wins), and a test case with an explicit `Content-Type` is untouched. -/
theorem content_type_injection_witness :
    (build_request "http://h"
        { test_name := "t4"
          request := { method := "POST", path := "/items",
                       headers := some [("X-Trace", "1")], body := none }
          expected_response := { status_code := 200, body := none } }
        { sampleOp with consumes := ["application/json", "application/xml"] }).headers =
      [("X-Trace", "1"), ("Content-Type", "application/json")] ∧
    (build_request "http://h"
        { test_name := "t4b"
          request := { method := "POST", path := "/items",
                       headers := some [("Content-Type", "text/plain")], body := none }
          expected_response := { status_code := 200, body := none } }
        { sampleOp with consumes := ["application/json", "application/xml"] }).headers =
      [("Content-Type", "text/plain")] := by
  constructor
  · exact (content_type_injection "http://h"
      { test_name := "t4"
        request := { method := "POST", path := "/items",
                     headers := some [("X-Trace", "1")], body := none }
        expected_response := { status_code := 200, body := none } }
      { sampleOp with consumes := ["application/json", "application/xml"] }).2.2
      "application/json" ["application/xml"] rfl (by decide)
  · exact (content_type_injection "http://h"
      { test_name := "t4b"
        request := { method := "POST", path := "/items",
                     headers := some [("Content-Type", "text/plain")], body := none }
        expected_response := { status_code := 200, body := none } }
      { sampleOp with consumes := ["application/json", "application/xml"] }).1
      (by decide)

/-- C5: the built request routes its body through form encoding (`data=`)
exactly when the effective `Content-Type` header equals
`application/x-www-form-urlencoded`, and through JSON encoding (`json=`)
for every other effective `Content-Type`, including none at all - the
encoding has exactly these two branches. -/
theorem body_encoding_dichotomy
    (base_url : String) (test_case : TestCase) (operation : OperationDescriptor) :
    ((build_request base_url test_case operation).encoding = BodyEncoding.form ↔
      lookupKey (build_request base_url test_case operation).headers "Content-Type" =
        some "application/x-www-form-urlencoded") ∧
    ((build_request base_url test_case operation).encoding = BodyEncoding.json ↔
      lookupKey (build_request base_url test_case operation).headers "Content-Type" ≠
        some "application/x-www-form-urlencoded") := by
  unfold build_request
  dsimp only
  by_cases h :
      lookupKey (effectiveHeaders (test_case.request.headers.getD []) operation)
        "Content-Type" = some "application/x-www-form-urlencoded" <;>
    simp [h]

/-- Witness for C5: an explicit form-urlencoded `Content-Type` routes
through form encoding, while `sampleTc`'s effective `application/json`
routes through JSON encoding. -/
theorem body_encoding_dichotomy_witness :
    (build_request "http://h"
        { test_name := "t5"
          request := { method := "POST", path := "/items",
                       headers := some [("Content-Type", "application/x-www-form-urlencoded")],
                       body := some (Json.obj [("a", Json.str "1"), ("b", Json.str "2")]) }
          expected_response := { status_code := 200, body := none } }
        sampleOp).encoding = BodyEncoding.form ∧
    (build_request "http://h" sampleTc sampleOp).encoding = BodyEncoding.json := by
  constructor
  · exact (body_encoding_dichotomy "http://h"
      { test_name := "t5"
        request := { method := "POST", path := "/items",
                     headers := some [("Content-Type", "application/x-www-form-urlencoded")],
                     body := some (Json.obj [("a", Json.str "1"), ("b", Json.str "2")]) }
        expected_response := { status_code := 200, body := none } }
      sampleOp).1.mpr rfl
  · exact (body_encoding_dichotomy "http://h" sampleTc sampleOp).2.mpr (by decide)

/-- C9 (code bug): the build step is not side-effect free. With a test case
whose `headers` key is present (here the empty mapping) and a descriptor
with non-empty `consumes`, line 69 inserts `Content-Type` into the very
dict stored inside the test case (line 64 binds an alias, not a copy), so
after building, the test case's own headers mapping has changed. -/
theorem build_mutates_test_case_headers :
    (testCaseAfterBuild
        { test_name := "t9"
          request := { method := "POST", path := "/items", headers := some [], body := none }
          expected_response := { status_code := 200, body := none } }
        sampleOp).request.headers = some [("Content-Type", "application/json")] ∧
    testCaseAfterBuild
        { test_name := "t9"
          request := { method := "POST", path := "/items", headers := some [], body := none }
          expected_response := { status_code := 200, body := none } }
        sampleOp ≠
      { test_name := "t9"
        request := { method := "POST", path := "/items", headers := some [], body := none }
        expected_response := { status_code := 200, body := none } } := by
  constructor
  · rfl
  · intro h
    have := congrArg (fun t => t.request.headers) h
    simp [testCaseAfterBuild, effectiveHeaders, hasKey, sampleOp] at this

/-! ## Operation normalizer theorems -/

/-- Every (path, method, operation) triple of the document whose method is
recognized contributes its descriptor to the output of `analyze_spec`. -/
theorem mkDescriptor_mem_analyze_spec (spec : ApiSpec) (p : String)
    (item : List (String × RawOperation)) (m : String) (op : RawOperation)
    (hp : (p, item) ∈ spec.paths) (hm : (m, op) ∈ item) (hmeth : m ∈ httpMethods) :
    mkDescriptor (spec.consumes.getD ["application/json"]) p m op ∈ analyze_spec spec := by
  simp only [analyze_spec, List.mem_flatMap, List.mem_filterMap]
  exact ⟨(p, item), hp, (m, op), hm, by simp [hmeth]⟩

/-- C3: for every recognized operation of the document, its descriptor is in
the output of `analyze_spec` and its `consumes` follows the three-level
fallback, resolved per operation: the operation-level `consumes` when that
key is present; otherwise the document-level `consumes` when that key is
present; otherwise the single-element default `["application/json"]`. -/
theorem consumes_three_level_fallback (spec : ApiSpec) (p : String)
    (item : List (String × RawOperation)) (m : String) (op : RawOperation)
    (hp : (p, item) ∈ spec.paths) (hm : (m, op) ∈ item) (hmeth : m ∈ httpMethods) :
    mkDescriptor (spec.consumes.getD ["application/json"]) p m op ∈ analyze_spec spec ∧
    (∀ c, op.consumes = some c →
      (mkDescriptor (spec.consumes.getD ["application/json"]) p m op).consumes = c) ∧
    (∀ g, op.consumes = none → spec.consumes = some g →
      (mkDescriptor (spec.consumes.getD ["application/json"]) p m op).consumes = g) ∧
    (op.consumes = none → spec.consumes = none →
      (mkDescriptor (spec.consumes.getD ["application/json"]) p m op).consumes =
        ["application/json"]) := by
  refine ⟨mkDescriptor_mem_analyze_spec spec p item m op hp hm hmeth, ?_, ?_, ?_⟩
  · intro c hc; simp [mkDescriptor, hc]
  · intro g hc hg; simp [mkDescriptor, hc, hg]
  · intro hc hg; simp [mkDescriptor, hc, hg]

/-- An operation carrying an operation-level `consumes = ["text/plain"]`. -/
def opWithConsumes : RawOperation := ⟨none, none, none, none, some ["text/plain"]⟩

/-- An operation with none of the optional keys present. -/
def opBare : RawOperation := ⟨none, none, none, none, none⟩

/-- A document with document-level `consumes = ["application/xml"]`, one
operation overriding it and one inheriting it. -/
def specXml : ApiSpec :=
  ⟨some ["application/xml"], [("/w", [("get", opWithConsumes), ("put", opBare)])]⟩

/-- Witness for C3: in `specXml` the operation-level `["text/plain"]`
overrides the document default, and the bare operation inherits the
document-level `["application/xml"]`. -/
theorem consumes_three_level_fallback_witness :
    mkDescriptor ["application/xml"] "/w" "get" opWithConsumes ∈ analyze_spec specXml ∧
    (mkDescriptor ["application/xml"] "/w" "get" opWithConsumes).consumes = ["text/plain"] ∧
    mkDescriptor ["application/xml"] "/w" "put" opBare ∈ analyze_spec specXml ∧
    (mkDescriptor ["application/xml"] "/w" "put" opBare).consumes = ["application/xml"] := by
  have h1 := consumes_three_level_fallback specXml "/w" [("get", opWithConsumes), ("put", opBare)]
    "get" opWithConsumes (List.Mem.head _) (List.Mem.head _) (by decide)
  have h2 := consumes_three_level_fallback specXml "/w" [("get", opWithConsumes), ("put", opBare)]
    "put" opBare (List.Mem.head _) (List.Mem.tail _ (List.Mem.head _)) (by decide)
  exact ⟨h1.1, h1.2.1 ["text/plain"] rfl, h2.1, h2.2.2.1 ["application/xml"] rfl rfl⟩

/-- C10: for every recognized operation object lacking an `operationId` key,
the descriptor put into the output has
`operation_id = method + "_" + path`. The method component is the lowercase
method: only keys belonging to the fixed all-lowercase set `httpMethods`
reach this construction, as the recognized-method conjunct records. -/
theorem default_operation_id (spec : ApiSpec) (p : String)
    (item : List (String × RawOperation)) (m : String) (op : RawOperation)
    (hp : (p, item) ∈ spec.paths) (hm : (m, op) ∈ item) (hmeth : m ∈ httpMethods)
    (hid : op.operationId = none) :
    mkDescriptor (spec.consumes.getD ["application/json"]) p m op ∈ analyze_spec spec ∧
    (mkDescriptor (spec.consumes.getD ["application/json"]) p m op).operation_id =
      m ++ "_" ++ p ∧
    m ∈ ["get", "post", "put", "delete", "patch"] := by
  refine ⟨mkDescriptor_mem_analyze_spec spec p item m op hp hm hmeth, ?_, hmeth⟩
  simp [mkDescriptor, hid]

/-- A document with a single `post /items` operation lacking `operationId`. -/
def specItems : ApiSpec := ⟨none, [("/items", [("post", opBare)])]⟩

/-- Witness for C10: the `post /items` operation without `operationId`
yields `operation_id = "post_/items"`. -/
theorem default_operation_id_witness :
    mkDescriptor ["application/json"] "/items" "post" opBare ∈ analyze_spec specItems ∧
    (mkDescriptor ["application/json"] "/items" "post" opBare).operation_id = "post_/items" := by
  have h := default_operation_id specItems "/items" [("post", opBare)] "post" opBare
    (List.Mem.head _) (List.Mem.head _) (by decide) rfl
  exact ⟨h.1, h.2.1⟩

/-- Mapping inside a `flatMap` does not change the number of elements. -/
theorem length_flatMap_map {α β γ : Type} (f : α → List β) (h : α → β → γ)
    (l : List α) :
    (l.flatMap (fun a => (f a).map (h a))).length = (l.flatMap f).length := by
  induction l with
  | nil => rfl
  | cons a t ih => simp [List.flatMap_cons, ih]

/-- Filtering with a guard inside `filterMap` is mapping over `filter`. -/
theorem filterMap_guard_eq_map_filter {α β : Type} (p : α → Bool) (h : α → β)
    (l : List α) :
    l.filterMap (fun a => if p a then some (h a) else none) = (l.filter p).map h := by
  induction l with
  | nil => rfl
  | cons a t ih =>
    by_cases hpa : p a <;> simp [List.filterMap_cons, List.filter_cons, hpa, ih]

/-- C6: `analyze_spec` produces exactly one descriptor per (path, method)
pair whose method key is in the fixed set {get, post, put, delete, patch},
in document iteration order (paths in insertion order, then methods within
each path item), and pairs with other method keys yield no descriptor: the
(path, method) projection of the output is exactly the document's filtered
pair sequence, and the output length is the count of recognized pairs. -/
theorem one_descriptor_per_recognized_pair (spec : ApiSpec) :
    (analyze_spec spec).map (fun d => (d.path, d.method)) =
      spec.paths.flatMap (fun pi =>
        (pi.2.filter (fun mo => mo.1 ∈ httpMethods)).map (fun mo => (pi.1, mo.1))) ∧
    (analyze_spec spec).length =
      (spec.paths.flatMap (fun pi =>
        pi.2.filter (fun mo => mo.1 ∈ httpMethods))).length := by
  have key : (analyze_spec spec).map (fun d => (d.path, d.method)) =
      spec.paths.flatMap (fun pi =>
        (pi.2.filter (fun mo => mo.1 ∈ httpMethods)).map (fun mo => (pi.1, mo.1))) := by
    simp only [analyze_spec, List.map_flatMap, List.map_filterMap]
    refine List.flatMap_congr (fun pi _ => ?_)
    rw [← filterMap_guard_eq_map_filter (fun mo => decide (mo.1 ∈ httpMethods))
      (fun mo => (pi.1, mo.1)) pi.2]
    refine List.filterMap_congr (fun mo _ => ?_)
    by_cases hmo : mo.1 ∈ httpMethods <;> simp [hmo, mkDescriptor]
  refine ⟨key, ?_⟩
  have hlen := congrArg List.length key
  rw [List.length_map] at hlen
  rw [hlen]
  exact length_flatMap_map (fun pi => pi.2.filter (fun mo => mo.1 ∈ httpMethods))
    (fun pi mo => (pi.1, mo.1)) spec.paths

/-- C8: the executing loop zips the aggregated test-case list with the
descriptor list positionally: exactly one verification result per zipped
pair, in generation order, and the i-th result is `run_test_case` applied
to the i-th test case and the i-th descriptor. -/
theorem executing_pairs_positionally
    (parse : String → Except String Json) (base_url : String)
    (net : OutboundRequest → NetOutcome)
    (tcs : List TestCase) (ops : List OperationDescriptor) :
    (run_all parse base_url net tcs ops).length = min tcs.length ops.length ∧
    ∀ i (h1 : i < tcs.length) (h2 : i < ops.length),
      (run_all parse base_url net tcs ops)[i]? =
        some (run_test_case parse base_url (tcs.get ⟨i, h1⟩) (ops.get ⟨i, h2⟩) net) := by
  constructor
  · simp [run_all, List.length_zip]
  · intro i h1 h2
    simp only [run_all, List.getElem?_map]
    have hz : (tcs.zip ops)[i]? = some (tcs.get ⟨i, h1⟩, ops.get ⟨i, h2⟩) :=
      List.getElem?_zip_eq_some.mpr
        ⟨List.getElem?_eq_getElem h1, List.getElem?_eq_getElem h2⟩
    rw [hz]
    rfl

/-- Witness for C8: with one generated test case and one descriptor, the
loop produces exactly the result of running that pair. -/
theorem executing_pairs_positionally_witness :
    (run_all parseLiteral "http://h" (fun _ => NetOutcome.exn "refused")
        [sampleTc] [sampleOp]).length = 1 ∧
    (run_all parseLiteral "http://h" (fun _ => NetOutcome.exn "refused")
        [sampleTc] [sampleOp])[0]? =
      some (run_test_case parseLiteral "http://h" sampleTc sampleOp
        (fun _ => NetOutcome.exn "refused")) := by
  have h := executing_pairs_positionally parseLiteral "http://h"
    (fun _ => NetOutcome.exn "refused") [sampleTc] [sampleOp]
  exact ⟨h.1, h.2 0 (by decide) (by decide)⟩
